import Mathlib

/-!
Shallow embedding of the booking lifecycle and conflict-resolution engine of
the simpruswil room-booking backend (the Express router in
`src/routes/bookings.js`, provided as `src/unnamed/part_001`).

Conventions of the embedding:
* timestamps are milliseconds since the Unix epoch, as naturals (all inputs
  of interest are post-epoch);
* Mongo document ids are naturals;
* a JS value read from `req.body` that may be absent (or empty, hence falsy)
  is an `Option`;
* a parsed `Date` that may be invalid (`NaN`) is an `Option Nat`;
* the booking collection is a `List Booking`; `findById` is `List.find?` on
  the id, `findByIdAndUpdate` maps over the list, `findByIdAndDelete`
  filters;
* each route handler is a pure function from its inputs (current time,
  rooms, store, caller, request) to an outcome record holding the response,
  the resulting store, and the file-cleanup side effects.
-/

inductive Status where
  | pending
  | approved
  | rejected
  | cancelled
  | completed
deriving DecidableEq, Repr

structure Booking where
  id : Nat
  userId : Nat
  roomId : Nat
  activityName : String
  purpose : String
  startTime : Nat
  endTime : Nat
  participantsCount : Nat
  notes : Option String
  documentPath : Option String
  status : Status
  lastNote : Option String
  lastActor : Option Nat
deriving DecidableEq, Repr

/-- A room's `operatingHours` subdocument: `start`/`end` as "HH:MM" strings,
either of which may be absent (the route code tests their truthiness). -/
structure OperatingHours where
  startStr : Option String
  endStr : Option String
deriving DecidableEq, Repr

structure Room where
  id : Nat
  capacity : Nat
  isActive : Bool
  operatingHours : Option OperatingHours
deriving DecidableEq, Repr

def msPerHour : Nat := 3600000

def msPerDay : Nat := 86400000

/-- JS `Date.prototype.getUTCHours` for a post-epoch timestamp. -/
def getUTCHours (t : Nat) : Nat := t / msPerHour % 24

/-- Calendar-day index of timestamp `t` in a fixed timezone offset of `off`
whole hours east of UTC. Models JS `Date.prototype.toDateString`, which
renders the date in the server process's local timezone: two timestamps have
equal `toDateString` in that zone iff their day indices agree. -/
def localDay (off t : Nat) : Nat := (t + off * msPerHour) / msPerDay

/-- JS `parseInt(s.split(':')[0])` for a well-formed "HH:MM" string. -/
def parseIntHour (s : String) : Nat := (((s.splitOn ":").headD "").toNat?).getD 0

/-- `room.operatingHours && room.operatingHours.start ? parseInt(room.operatingHours.start.split(':')[0]) : 8` -/
def roomStartHour (room : Room) : Nat :=
  match room.operatingHours with
  | some oh =>
    match oh.startStr with
    | some s => parseIntHour s
    | none => 8
  | none => 8

/-- `room.operatingHours && room.operatingHours.end ? parseInt(room.operatingHours.end.split(':')[0]) : 17` -/
def roomEndHour (room : Room) : Nat :=
  match room.operatingHours with
  | some oh =>
    match oh.endStr with
    | some s => parseIntHour s
    | none => 17
  | none => 17

/-- The operating-hours window strings surfaced in the
`OutOfOperatingHours` error message (defaults "08:00"–"17:00"). -/
def roomWindow (room : Room) : String × String :=
  (match room.operatingHours with
   | some oh => oh.startStr.getD "08:00"
   | none => "08:00",
   match room.operatingHours with
   | some oh => oh.endStr.getD "17:00"
   | none => "17:00")

/-- Predicate an existing booking must satisfy to be reported as a conflict
for a query on room `rid` over `[s, e)`, excluding `excl` when given. -/
def isBlockingFor (rid s e : Nat) (excl : Option Nat) (b : Booking) : Bool :=
  b.roomId == rid &&
  !(b.status == Status.cancelled) && !(b.status == Status.rejected) &&
  (match excl with
   | some i => !(b.id == i)
   | none => true) &&
  decide (b.startTime < e) && decide (s < b.endTime)

/-- Modelled from the spec: the static `Booking.checkConflict(roomId,
startTime, endTime, excludeBookingId)` of `models/Booking.js`, whose body is
not among the provided sources (only its call sites in the booking routes
are). Per the spec it "returns the first conflicting booking (if any) whose
status is not `cancelled` or `rejected`, for the given room, excluding the
booking being updated (if any), where conflict means the two intervals
`[start,end)` overlap (standard half-open interval overlap:
`existing.start < end AND existing.end > start`)". -/
def checkConflict (store : List Booking) (rid s e : Nat)
    (excl : Option Nat) : Option Booking :=
  store.find? (isBlockingFor rid s e excl)

/-- Unfolding of the Bool conflict predicate into a proposition. -/
theorem isBlockingFor_iff (rid s e : Nat) (excl : Option Nat) (b : Booking) :
    isBlockingFor rid s e excl b = true ↔
      b.roomId = rid ∧ b.status ≠ Status.cancelled ∧
      b.status ≠ Status.rejected ∧ (∀ i, excl = some i → b.id ≠ i) ∧
      b.startTime < e ∧ s < b.endTime := by
  cases excl with
  | none =>
    simp [isBlockingFor]
    tauto
  | some j =>
    simp only [isBlockingFor, Bool.and_eq_true, Bool.not_eq_true',
      beq_iff_eq, beq_eq_false_iff_ne, decide_eq_true_eq]
    constructor
    · rintro ⟨⟨⟨⟨⟨h1, h2⟩, h3⟩, h4⟩, h5⟩, h6⟩
      refine ⟨h1, h2, h3, ?_, h5, h6⟩
      intro i hi
      cases hi
      exact h4
    · rintro ⟨h1, h2, h3, h4, h5, h6⟩
      exact ⟨⟨⟨⟨⟨h1, h2⟩, h3⟩, h4 j rfl⟩, h5⟩, h6⟩

/-- C1. For every room and every pair of intervals, the conflict detector
reports a conflict iff some existing booking for that room whose status is
not cancelled or rejected (excluding the booking being updated, if an
exclusion id is given) satisfies `existing.start < end ∧ existing.end >
start`; an interval touching another end-to-start is not a conflict, and an
interval overlapping by one unit is. -/
theorem checkConflict_spec (store : List Booking) (rid s e : Nat)
    (excl : Option Nat) :
    ((checkConflict store rid s e excl).isSome ↔
      ∃ b ∈ store, b.roomId = rid ∧ b.status ≠ Status.cancelled ∧
        b.status ≠ Status.rejected ∧ (∀ i, excl = some i → b.id ≠ i) ∧
        b.startTime < e ∧ s < b.endTime) ∧
    (∀ b : Booking, b.endTime = s ∨ b.startTime = e →
      checkConflict [b] rid s e excl = none) ∧
    (∀ b : Booking, b.roomId = rid → b.status ≠ Status.cancelled →
      b.status ≠ Status.rejected → b.endTime = s + 1 → b.startTime ≤ s →
      s < e → (checkConflict [b] rid s e none).isSome = true) := by
  refine ⟨?_, ?_, ?_⟩
  · rw [checkConflict, List.find?_isSome]
    constructor
    · rintro ⟨x, hx, hp⟩
      exact ⟨x, hx, (isBlockingFor_iff rid s e excl x).1 hp⟩
    · rintro ⟨x, hx, hp⟩
      exact ⟨x, hx, (isBlockingFor_iff rid s e excl x).2 hp⟩
  · intro b hb
    have hfalse : ¬ (isBlockingFor rid s e excl b = true) := by
      intro hp
      obtain ⟨_, _, _, _, h5, h6⟩ := (isBlockingFor_iff rid s e excl b).1 hp
      rcases hb with hb | hb <;> omega
    rw [checkConflict, List.find?_cons_of_neg _ hfalse, List.find?_nil]
  · intro b h1 h2 h3 h4 h5 h6
    have hexcl : ∀ i, (none : Option Nat) = some i → b.id ≠ i := by
      intro i hi
      cases hi
    have htrue : isBlockingFor rid s e none b = true :=
      (isBlockingFor_iff rid s e none b).2
        ⟨h1, h2, h3, hexcl, by omega, by omega⟩
    rw [checkConflict, List.find?_cons_of_pos _ htrue]
    rfl

/-- A concrete booking record, for evaluating the theorems on explicit
inputs. -/
def sampleBooking (id userId roomId s e : Nat) (st : Status)
    (doc : Option String) : Booking :=
  { id := id,
    userId := userId,
    roomId := roomId,
    activityName := "Rapat Koordinasi",
    purpose := "Diskusi",
    startTime := s,
    endTime := e,
    participantsCount := 5,
    notes := none,
    documentPath := doc,
    status := st,
    lastNote := none,
    lastActor := none }

/-- Witness for C1: an existing booking on room 1 over `[50, 100)` is not a
conflict for a query over `[100, 200)` — touching end-to-start. -/
theorem checkConflict_spec_witness :
    checkConflict [sampleBooking 1 1 1 50 100 Status.pending none]
      1 100 200 none = none :=
  (checkConflict_spec [] 1 100 200 none).2.1
    (sampleBooking 1 1 1 50 100 Status.pending none) (Or.inl rfl)

/-- Request-independent ambient state of a handler invocation: the current
instant (`new Date()`) and the timezone offset, in whole hours east of UTC,
of the server process (which determines `toDateString`). -/
structure Env where
  now : Nat
  serverOffsetHours : Nat
deriving DecidableEq, Repr

/-- The body and upload of a `POST /` create request. Outer `Option`s model
JS truthiness of the raw field (absent or empty string is falsy); for the
two date fields the inner `Option Nat` is the parsed `new Date(...)` value,
`none` meaning an invalid date (`NaN`). -/
structure CreateReq where
  roomId : Option Nat
  activityName : Option String
  purpose : String
  startTime : Option (Option Nat)
  endTime : Option (Option Nat)
  participantsCount : Option Nat
  notes : Option String
  file : Option String
deriving DecidableEq, Repr

/-- The distinct error responses of the create handler, by source branch. -/
inductive CreateError where
  | missingFields
  | roomNotFound
  | invalidDate
  | endNotAfterStart
  | inPast
  | conflict (conflicting : Booking)
  | capacityExceeded (requested capacity : Nat)
  | outOfOperatingHours (window : String × String)
  | internalError
deriving DecidableEq, Repr

structure CreateOutcome where
  result : Except CreateError Booking
  store : List Booking
  fileDeleted : Bool
deriving Repr

/-- The operating-hours test shared verbatim by the create and update
handlers: skip when start and end print to different `toDateString`s in the
server's local zone; otherwise convert both UTC hours to Jakarta time
(UTC+7) and compare against the room's window. -/
def outOfHours (env : Env) (room : Room) (s e : Nat) : Bool :=
  let isMultiDay := !(localDay env.serverOffsetHours s == localDay env.serverOffsetHours e)
  if isMultiDay then false
  else
    let startHour := (getUTCHours s + 7) % 24
    let endHour := (getUTCHours e + 7) % 24
    decide (startHour < roomStartHour room) || decide (roomEndHour room < endHour)

/-- Modelled from the spec: the instance method `updateStatus(status, note,
actorId)` of `models/Booking.js`, whose body is not among the provided
sources. Per the spec a successful transition "sets the new status and
records the acting user id and optional note as the latest audit
annotation". -/
def Booking.updateStatus (b : Booking) (st : Status) (note : String)
    (actorId : Nat) : Booking :=
  { b with status := st, lastNote := some note, lastActor := some actorId }

/-- The `POST /` create handler (`src/unnamed/part_001`, lines 25–201).
`freshId` is the id Mongo would assign to the new document; `storeThrows`
models `Booking.create` raising (schema `ValidationError` or store
failure), which lands in the catch block — the only place that deletes the
uploaded file. Checks run in source order: required fields, room
exists/active, date validity, end after start, not in the past, conflict,
capacity, operating hours. -/
def createBooking (env : Env) (rooms : List Room) (store : List Booking)
    (callerId freshId : Nat) (req : CreateReq) (storeThrows : Bool) :
    CreateOutcome :=
  match req.roomId, req.activityName, req.startTime, req.endTime with
  | some rid, some activityName, some startRaw, some endRaw =>
    (match rooms.find? (fun r => r.id == rid) with
     | none => ⟨Except.error CreateError.roomNotFound, store, false⟩
     | some room =>
       if !room.isActive then ⟨Except.error CreateError.roomNotFound, store, false⟩
       else
         match startRaw, endRaw with
         | some s, some e =>
           if e ≤ s then ⟨Except.error CreateError.endNotAfterStart, store, false⟩
           else if s < env.now then ⟨Except.error CreateError.inPast, store, false⟩
           else
             match checkConflict store rid s e none with
             | some cb => ⟨Except.error (CreateError.conflict cb), store, false⟩
             | none =>
               let capacityBad :=
                 match req.participantsCount with
                 | some pc => decide (room.capacity < pc)
                 | none => false
               if capacityBad then
                 ⟨Except.error (CreateError.capacityExceeded
                   (req.participantsCount.getD 0) room.capacity), store, false⟩
               else if outOfHours env room s e then
                 ⟨Except.error (CreateError.outOfOperatingHours (roomWindow room)),
                  store, false⟩
               else
                 let newBooking : Booking :=
                   { id := freshId,
                     userId := callerId,
                     roomId := rid,
                     activityName := activityName.trim,
                     purpose := req.purpose.trim,
                     startTime := s,
                     endTime := e,
                     participantsCount :=
                       match req.participantsCount with
                       | some pc => pc
                       | none => 1,
                     notes :=
                       match req.notes with
                       | some n => some n.trim
                       | none => none,
                     documentPath := req.file,
                     status := Status.pending,
                     lastNote := none,
                     lastActor := none }
                 if storeThrows then
                   ⟨Except.error CreateError.internalError, store, req.file.isSome⟩
                 else
                   ⟨Except.ok newBooking, store ++ [newBooking], false⟩
         | _, _ => ⟨Except.error CreateError.invalidDate, store, false⟩)
  | _, _, _, _ => ⟨Except.error CreateError.missingFields, store, false⟩

/-- The body and upload of a `PUT /:id` update request. `notes` is
`Option (Option String)`: outer `none` = field absent (`undefined`, no
change), `some none` = present but falsy (clears the note), `some (some n)`
= set to `n.trim()`. -/
structure UpdateReq where
  activityName : Option String
  startTime : Option (Option Nat)
  endTime : Option (Option Nat)
  participantsCount : Option Nat
  notes : Option (Option String)
  file : Option String
deriving DecidableEq, Repr

inductive UpdateError where
  | notFound
  | forbidden
  | notPending
  | alreadyStarted
  | roomNotFound
  | invalidDate
  | endNotAfterStart
  | inPast
  | outOfOperatingHours (window : String × String)
  | conflict (conflicting : Booking)
deriving DecidableEq, Repr

structure UpdateOutcome where
  result : Except UpdateError Booking
  store : List Booking
  oldFileDeleted : Bool
deriving Repr

/-- The `updateData` document built by the `PUT /:id` handler, applied to
the stored booking (`findByIdAndUpdate`): optional activity name (trimmed),
participants count (with no capacity check), notes, replacement document
path, and — when the interval was updated and validated — the new times. -/
def applyUpdate (b : Booking) (req : UpdateReq)
    (times : Option (Nat × Nat)) : Booking :=
  { b with
    activityName :=
      match req.activityName with
      | some a => a.trim
      | none => b.activityName,
    participantsCount :=
      match req.participantsCount with
      | some pc => pc
      | none => b.participantsCount,
    notes :=
      match req.notes with
      | some (some n) => some n.trim
      | some none => none
      | none => b.notes,
    documentPath :=
      match req.file with
      | some f => some f
      | none => b.documentPath,
    startTime :=
      match times with
      | some (ns, _) => ns
      | none => b.startTime,
    endTime :=
      match times with
      | some (_, ne) => ne
      | none => b.endTime }

/-- The `PUT /:id` update handler (`src/unnamed/part_001`, lines 321–530).
Guards in source order: booking exists, caller owns it, status is
`pending`, start time not yet passed, room exists and is active. Field
updates are collected with no capacity check on `participantsCount`; when
a new interval is given it is validated (dates, order, not past, operating
hours) and then conflict-checked excluding the booking itself. The old
document file is deleted as soon as a replacement upload is present, before
the interval validation. -/
def updateBooking (env : Env) (rooms : List Room) (store : List Booking)
    (callerId bookingId : Nat) (req : UpdateReq) : UpdateOutcome :=
  match store.find? (fun b => b.id == bookingId) with
  | none => ⟨Except.error UpdateError.notFound, store, false⟩
  | some booking =>
    if !(booking.userId == callerId) then
      ⟨Except.error UpdateError.forbidden, store, false⟩
    else if !(booking.status == Status.pending) then
      ⟨Except.error UpdateError.notPending, store, false⟩
    else if booking.startTime < env.now then
      ⟨Except.error UpdateError.alreadyStarted, store, false⟩
    else
      match rooms.find? (fun r => r.id == booking.roomId) with
      | none => ⟨Except.error UpdateError.roomNotFound, store, false⟩
      | some room =>
        if !room.isActive then
          ⟨Except.error UpdateError.roomNotFound, store, false⟩
        else
          let oldFileGone := req.file.isSome && booking.documentPath.isSome
          if req.startTime.isSome || req.endTime.isSome then
            match (match req.startTime with
                   | some v => v
                   | none => some booking.startTime),
                  (match req.endTime with
                   | some v => v
                   | none => some booking.endTime) with
            | some ns, some ne =>
              if ne ≤ ns then
                ⟨Except.error UpdateError.endNotAfterStart, store, oldFileGone⟩
              else if ns < env.now then
                ⟨Except.error UpdateError.inPast, store, oldFileGone⟩
              else if outOfHours env room ns ne then
                ⟨Except.error (UpdateError.outOfOperatingHours (roomWindow room)),
                 store, oldFileGone⟩
              else
                match checkConflict store booking.roomId ns ne (some booking.id) with
                | some cb =>
                  ⟨Except.error (UpdateError.conflict cb), store, oldFileGone⟩
                | none =>
                  let updated := applyUpdate booking req (some (ns, ne))
                  ⟨Except.ok updated,
                   store.map (fun b => if b.id == bookingId then updated else b),
                   oldFileGone⟩
            | _, _ => ⟨Except.error UpdateError.invalidDate, store, oldFileGone⟩
          else
            let updated := applyUpdate booking req none
            ⟨Except.ok updated,
             store.map (fun b => if b.id == bookingId then updated else b),
             oldFileGone⟩

inductive CancelError where
  | notFound
  | forbidden
  | alreadyCancelledOrRejected
  | alreadyStarted
deriving DecidableEq, Repr

structure CancelOutcome where
  result : Except CancelError Booking
  store : List Booking
deriving Repr

/-- The `PATCH /:id/cancel` handler (`src/unnamed/part_001`, lines
535–586). Guards in source order: booking exists, caller owns it, status is
not `cancelled` or `rejected`, start time not yet passed; then
`updateStatus('cancelled', 'Dibatalkan oleh user', caller)`. -/
def cancelBooking (env : Env) (store : List Booking)
    (callerId bookingId : Nat) : CancelOutcome :=
  match store.find? (fun b => b.id == bookingId) with
  | none => ⟨Except.error CancelError.notFound, store⟩
  | some booking =>
    if !(booking.userId == callerId) then
      ⟨Except.error CancelError.forbidden, store⟩
    else if booking.status == Status.cancelled || booking.status == Status.rejected then
      ⟨Except.error CancelError.alreadyCancelledOrRejected, store⟩
    else if booking.startTime < env.now then
      ⟨Except.error CancelError.alreadyStarted, store⟩
    else
      let updated := booking.updateStatus Status.cancelled "Dibatalkan oleh user" callerId
      ⟨Except.ok updated,
       store.map (fun b => if b.id == bookingId then updated else b)⟩

inductive DeleteError where
  | notFound
  | forbidden
  | notDeletable
deriving DecidableEq, Repr

structure DeleteOutcome where
  result : Except DeleteError Unit
  store : List Booking
  docDeleted : Bool
deriving Repr

/-- The owner `DELETE /:id` handler (`src/unnamed/part_001`, lines
591–640). Guards: booking exists, caller owns it, status is `cancelled`,
`rejected` or `completed`; then the attached document (if any) is deleted
and the record removed. -/
def deleteBooking (store : List Booking) (callerId bookingId : Nat) :
    DeleteOutcome :=
  match store.find? (fun b => b.id == bookingId) with
  | none => ⟨Except.error DeleteError.notFound, store, false⟩
  | some booking =>
    if !(booking.userId == callerId) then
      ⟨Except.error DeleteError.forbidden, store, false⟩
    else if !(booking.status == Status.cancelled ||
              booking.status == Status.rejected ||
              booking.status == Status.completed) then
      ⟨Except.error DeleteError.notDeletable, store, false⟩
    else
      ⟨Except.ok (), store.filter (fun b => !(b.id == bookingId)),
       booking.documentPath.isSome⟩

/-- The admin `DELETE /admin/:id` handler (`src/unnamed/part_001`, lines
1015–1048). After the existence check there is no further guard: the
attached document (if any) is deleted and the record removed whatever its
status. -/
def adminDeleteBooking (store : List Booking) (bookingId : Nat) :
    DeleteOutcome :=
  match store.find? (fun b => b.id == bookingId) with
  | none => ⟨Except.error DeleteError.notFound, store, false⟩
  | some booking =>
    ⟨Except.ok (), store.filter (fun b => !(b.id == bookingId)),
     booking.documentPath.isSome⟩

/-- The admissible raw `status` values of a `PATCH /:id/status` request;
a missing or different raw value is rejected by input validation before the
transition logic runs. -/
inductive TargetStatus where
  | approved
  | rejected
  | completed
deriving DecidableEq, Repr

def TargetStatus.toStatus : TargetStatus → Status
  | .approved => Status.approved
  | .rejected => Status.rejected
  | .completed => Status.completed

inductive SetStatusError where
  | notFound
  | onlyApprovedCanBeCompleted
  | onlyPendingCanBeDecided
  | conflict (conflicting : Booking)
deriving DecidableEq, Repr

structure SetStatusOutcome where
  result : Except SetStatusError Booking
  store : List Booking
deriving Repr

/-- The admin `PATCH /:id/status` handler (`src/unnamed/part_001`, lines
751–866). After input validation: booking exists; `completed` requires
current status `approved`; `approved`/`rejected` require current status
`pending`; approving re-runs the conflict check over the current store,
excluding the booking itself; then `updateStatus(status, adminNote || '',
admin)`. -/
def updateBookingStatus (store : List Booking) (adminId bookingId : Nat)
    (target : TargetStatus) (adminNote : Option String) : SetStatusOutcome :=
  match store.find? (fun b => b.id == bookingId) with
  | none => ⟨Except.error SetStatusError.notFound, store⟩
  | some booking =>
    if target == TargetStatus.completed && !(booking.status == Status.approved) then
      ⟨Except.error SetStatusError.onlyApprovedCanBeCompleted, store⟩
    else if (target == TargetStatus.approved || target == TargetStatus.rejected) &&
            !(booking.status == Status.pending) then
      ⟨Except.error SetStatusError.onlyPendingCanBeDecided, store⟩
    else
      match (if target == TargetStatus.approved then
               checkConflict store booking.roomId booking.startTime
                 booking.endTime (some booking.id)
             else none) with
      | some cb => ⟨Except.error (SetStatusError.conflict cb), store⟩
      | none =>
        let updated := booking.updateStatus target.toStatus (adminNote.getD "") adminId
        ⟨Except.ok updated,
         store.map (fun b => if b.id == bookingId then updated else b)⟩

/-- A concrete active room with capacity 10 and default operating hours. -/
def room1 : Room := { id := 1, capacity := 10, isActive := true, operatingHours := none }

/-- A concrete environment: current instant 0, server running in UTC. -/
def envUTC : Env := { now := 0, serverOffsetHours := 0 }

/-- A concrete pending booking on room 1 over 02:00–03:00 UTC of day 10
(09:00–10:00 Jakarta time). -/
def b0 : Booking := sampleBooking 1 1 1 871200000 874800000 Status.pending none

/-- C2 counterexample. The claim says a refused transition fails with an
error "carrying the current status". The set-status handler returns the
same fixed error for every refused current status: a booking whose status
is `cancelled` and one whose status is `rejected` produce identical
responses when an admin tries to mark them `completed`, so the error
cannot carry (nor determine) the current status. -/
theorem setStatus_error_uniform_cx :
    (updateBookingStatus [sampleBooking 1 1 1 871200000 874800000 Status.cancelled none]
        9 1 TargetStatus.completed none).result
      = Except.error SetStatusError.onlyApprovedCanBeCompleted ∧
    (updateBookingStatus [sampleBooking 1 1 1 871200000 874800000 Status.rejected none]
        9 1 TargetStatus.completed none).result
      = Except.error SetStatusError.onlyApprovedCanBeCompleted ∧
    (sampleBooking 1 1 1 871200000 874800000 Status.cancelled none).status ≠
      (sampleBooking 1 1 1 871200000 874800000 Status.rejected none).status :=
  ⟨rfl, rfl, by decide⟩

/-- C2 (amended). An admin set-status request succeeds only when the target
is `completed` and the current status is `approved`, or the target is
`approved`/`rejected` and the current status is `pending`; every other
attempt fails with the fixed invalid-state error of its branch (which does
not carry the current status) and leaves the store unchanged. -/
theorem setStatus_transition_guard (store : List Booking)
    (adminId bookingId : Nat) (target : TargetStatus) (note : Option String)
    (b : Booking)
    (hfind : store.find? (fun x => x.id == bookingId) = some b) :
    ((∃ b', (updateBookingStatus store adminId bookingId target note).result
        = Except.ok b') →
      ((target = TargetStatus.completed ∧ b.status = Status.approved) ∨
       ((target = TargetStatus.approved ∨ target = TargetStatus.rejected) ∧
        b.status = Status.pending))) ∧
    (¬ ((target = TargetStatus.completed ∧ b.status = Status.approved) ∨
        ((target = TargetStatus.approved ∨ target = TargetStatus.rejected) ∧
         b.status = Status.pending)) →
      (updateBookingStatus store adminId bookingId target note).result
        = Except.error (if target = TargetStatus.completed
            then SetStatusError.onlyApprovedCanBeCompleted
            else SetStatusError.onlyPendingCanBeDecided) ∧
      (updateBookingStatus store adminId bookingId target note).store = store) := by
  cases target <;> cases hst : b.status <;>
    simp_all [updateBookingStatus]

/-- Witness for C2: a booking in `approved` cannot be set to `rejected`;
the attempt returns the fixed pending-only error and leaves the store
unchanged. -/
theorem setStatus_transition_guard_witness :
    (updateBookingStatus [sampleBooking 1 1 1 871200000 874800000 Status.approved none]
        9 1 TargetStatus.rejected none).result
      = Except.error (if TargetStatus.rejected = TargetStatus.completed
          then SetStatusError.onlyApprovedCanBeCompleted
          else SetStatusError.onlyPendingCanBeDecided) ∧
    (updateBookingStatus [sampleBooking 1 1 1 871200000 874800000 Status.approved none]
        9 1 TargetStatus.rejected none).store
      = [sampleBooking 1 1 1 871200000 874800000 Status.approved none] :=
  (setStatus_transition_guard
    [sampleBooking 1 1 1 871200000 874800000 Status.approved none]
    9 1 TargetStatus.rejected none
    (sampleBooking 1 1 1 871200000 874800000 Status.approved none) rfl).2
    (by decide)

/-- C3. Admin approval re-runs the conflict check: if `X` and `Y` overlap
on the same room, `X` is already `approved` and `Y` is still `pending`,
then acting on `Y`'s approval fails with a conflict error and the store —
hence `Y`'s `pending` status — is unchanged. -/
theorem approval_recheck (store : List Booking) (adminId : Nat)
    (X Y : Booking) (note : Option String)
    (hfind : store.find? (fun b => b.id == Y.id) = some Y)
    (hXmem : X ∈ store) (hXid : X.id ≠ Y.id) (hroom : X.roomId = Y.roomId)
    (hXst : X.status = Status.approved) (hYst : Y.status = Status.pending)
    (hov1 : X.startTime < Y.endTime) (hov2 : Y.startTime < X.endTime) :
    (∃ c, (updateBookingStatus store adminId Y.id TargetStatus.approved note).result
        = Except.error (SetStatusError.conflict c)) ∧
    (updateBookingStatus store adminId Y.id TargetStatus.approved note).store
      = store := by
  have hexcl : ∀ i, (some Y.id : Option Nat) = some i → X.id ≠ i := by
    intro i hi
    cases hi
    exact hXid
  have hsome : (checkConflict store Y.roomId Y.startTime Y.endTime (some Y.id)).isSome := by
    rw [checkConflict, List.find?_isSome]
    refine ⟨X, hXmem, (isBlockingFor_iff _ _ _ _ X).2
      ⟨hroom, by simp [hXst], by simp [hXst], hexcl, hov1, hov2⟩⟩
  obtain ⟨c, hc⟩ := Option.isSome_iff_exists.1 hsome
  refine ⟨⟨c, ?_⟩, ?_⟩ <;>
    simp [updateBookingStatus, hfind, hYst, hc]

/-- Witness for C3: with approved booking 1 and overlapping pending
booking 2 on room 1, approving booking 2 fails with a conflict and the
store is unchanged. -/
theorem approval_recheck_witness :
    (∃ c, (updateBookingStatus
        [sampleBooking 1 1 1 871200000 874800000 Status.approved none,
         sampleBooking 2 2 1 872000000 875000000 Status.pending none]
        9 2 TargetStatus.approved none).result
      = Except.error (SetStatusError.conflict c)) ∧
    (updateBookingStatus
        [sampleBooking 1 1 1 871200000 874800000 Status.approved none,
         sampleBooking 2 2 1 872000000 875000000 Status.pending none]
        9 2 TargetStatus.approved none).store
      = [sampleBooking 1 1 1 871200000 874800000 Status.approved none,
         sampleBooking 2 2 1 872000000 875000000 Status.pending none] :=
  approval_recheck
    [sampleBooking 1 1 1 871200000 874800000 Status.approved none,
     sampleBooking 2 2 1 872000000 875000000 Status.pending none]
    9 (sampleBooking 1 1 1 871200000 874800000 Status.approved none)
    (sampleBooking 2 2 1 872000000 875000000 Status.pending none) none
    rfl (List.mem_cons_self _ _) (by decide) rfl rfl rfl
    (by decide) (by decide)

/-- A create request for 02:00–03:00 UTC of day 10 on room 1 that both
overlaps `b0` and asks for 15 participants against capacity 10. -/
def reqConflictOverCap : CreateReq :=
  { roomId := some 1,
    activityName := some "Latihan",
    purpose := "Latihan dasar",
    startTime := some (some 871200000),
    endTime := some (some 874800000),
    participantsCount := some 15,
    notes := none,
    file := none }

/-- C4 counterexample. A create request that both exceeds the room's
capacity (15 > 10) and overlaps `b0` is rejected with the Conflict error,
not the validator's CapacityExceeded: the conflict check runs first. -/
theorem create_conflict_before_validator_cx :
    (createBooking envUTC [room1] [b0] 2 9 reqConflictOverCap false).result
      = Except.error (CreateError.conflict b0) ∧
    reqConflictOverCap.participantsCount = some 15 ∧
    room1.capacity < 15 :=
  ⟨rfl, rfl, by decide⟩

/-- C4 (amended). In the create handler the conflict check runs before the
capacity and operating-hours checks: whenever a request passes the field,
room, date-validity, ordering and not-in-the-past checks and its interval
conflicts with an existing booking, the response is the Conflict error —
regardless of any capacity or operating-hours violation — and the store is
unchanged. -/
theorem create_conflict_checked_first (env : Env) (rooms : List Room)
    (store : List Booking) (callerId freshId : Nat) (req : CreateReq)
    (th : Bool) (rid : Nat) (a : String) (s e : Nat) (room : Room)
    (c : Booking)
    (hrid : req.roomId = some rid) (ha : req.activityName = some a)
    (hs : req.startTime = some (some s)) (he : req.endTime = some (some e))
    (hroom : rooms.find? (fun r => r.id == rid) = some room)
    (hactive : room.isActive = true)
    (horder : s < e) (hnow : env.now ≤ s)
    (hconf : checkConflict store rid s e none = some c) :
    (createBooking env rooms store callerId freshId req th).result
      = Except.error (CreateError.conflict c) ∧
    (createBooking env rooms store callerId freshId req th).store = store := by
  have h1 : ¬ (e ≤ s) := by omega
  have h2 : ¬ (s < env.now) := by omega
  simp [createBooking, hrid, ha, hs, he, hroom, hactive, hconf, h1, h2]

/-- Witness for C4: the concrete over-capacity conflicting request of the
counterexample, driven through the amended theorem. -/
theorem create_conflict_checked_first_witness :
    (createBooking envUTC [room1] [b0] 2 9 reqConflictOverCap false).result
      = Except.error (CreateError.conflict b0) ∧
    (createBooking envUTC [room1] [b0] 2 9 reqConflictOverCap false).store
      = [b0] :=
  create_conflict_checked_first envUTC [room1] [b0] 2 9 reqConflictOverCap
    false 1 "Latihan" 871200000 874800000 room1 b0
    rfl rfl rfl rfl rfl rfl (by decide) (by decide) rfl

/-- An owner update request that only sets `participantsCount` to 15. -/
def reqSetPc15 : UpdateReq :=
  { activityName := none,
    startTime := none,
    endTime := none,
    participantsCount := some 15,
    notes := none,
    file := none }

/-- C5 counterexample. Room 1 has capacity 10, yet the owner's update
setting `participantsCount` to 15 on the pending future booking `b0`
succeeds — the update path never checks capacity. -/
theorem update_capacity_unchecked_cx :
    (∃ b', (updateBooking envUTC [room1] [b0] 1 1 reqSetPc15).result
        = Except.ok b' ∧ b'.participantsCount = 15) ∧
    room1.capacity = 10 :=
  ⟨⟨applyUpdate b0 reqSetPc15 none, rfl, rfl⟩, rfl⟩

/-- C5 (amended). The capacity bound is enforced at creation only: a create
request that reaches the capacity check with `participantsCount` above the
room's capacity fails with CapacityExceeded, while the owner update path
never checks capacity — an update setting any `participantsCount`, capacity
notwithstanding, succeeds. -/
theorem capacity_checked_at_create_only :
    (∀ (env : Env) (rooms : List Room) (store : List Booking)
       (callerId freshId : Nat) (req : CreateReq) (th : Bool)
       (rid : Nat) (a : String) (s e : Nat) (room : Room) (n : Nat),
      req.roomId = some rid → req.activityName = some a →
      req.startTime = some (some s) → req.endTime = some (some e) →
      rooms.find? (fun r => r.id == rid) = some room → room.isActive = true →
      s < e → env.now ≤ s →
      checkConflict store rid s e none = none →
      req.participantsCount = some n → room.capacity < n →
      (createBooking env rooms store callerId freshId req th).result
        = Except.error (CreateError.capacityExceeded n room.capacity)) ∧
    (∀ (env : Env) (rooms : List Room) (store : List Booking)
       (callerId bookingId : Nat) (req : UpdateReq) (b : Booking)
       (room : Room) (n : Nat),
      store.find? (fun x => x.id == bookingId) = some b →
      b.userId = callerId → b.status = Status.pending →
      env.now ≤ b.startTime →
      rooms.find? (fun r => r.id == b.roomId) = some room →
      room.isActive = true →
      req.startTime = none → req.endTime = none →
      req.participantsCount = some n →
      (updateBooking env rooms store callerId bookingId req).result
        = Except.ok (applyUpdate b req none) ∧
      (applyUpdate b req none).participantsCount = n) := by
  constructor
  · intro env rooms store callerId freshId req th rid a s e room n
      hrid ha hs he hroom hactive horder hnow hconf hpc hcap
    have h1 : ¬ (e ≤ s) := by omega
    have h2 : ¬ (s < env.now) := by omega
    simp [createBooking, hrid, ha, hs, he, hroom, hactive, hconf, h1, h2,
      hpc, hcap]
  · intro env rooms store callerId bookingId req b room n
      hfind huser hst hnow hroomf hactive hsnone henone hpc
    have h2 : ¬ (b.startTime < env.now) := by omega
    constructor
    · simp [updateBooking, hfind, huser, hst, h2, hroomf, hactive,
        hsnone, henone]
    · simp [applyUpdate, hpc]

/-- Witness for C5: creating on the empty store with 15 participants
against capacity 10 fails with CapacityExceeded; the owner update setting
15 participants on the pending booking `b0` succeeds. -/
theorem capacity_checked_at_create_only_witness :
    (createBooking envUTC [room1] [] 2 9 reqConflictOverCap false).result
      = Except.error (CreateError.capacityExceeded 15 10) ∧
    (updateBooking envUTC [room1] [b0] 1 1 reqSetPc15).result
      = Except.ok (applyUpdate b0 reqSetPc15 none) :=
  ⟨capacity_checked_at_create_only.1 envUTC [room1] [] 2 9 reqConflictOverCap
      false 1 "Latihan" 871200000 874800000 room1 15
      rfl rfl rfl rfl rfl rfl (by decide) (by decide) rfl rfl (by decide),
   (capacity_checked_at_create_only.2 envUTC [room1] [b0] 1 1 reqSetPc15
      b0 room1 15 rfl rfl rfl (by decide) rfl rfl rfl rfl rfl).1⟩

/-- C6 counterexample. A `completed` booking whose start time is still in
the future can be cancelled: the cancel guard only blocks the statuses
`cancelled` and `rejected`, not the terminal status `completed`. -/
theorem cancel_completed_cx :
    (sampleBooking 1 1 1 871200000 874800000 Status.completed none).status
      = Status.completed ∧
    (cancelBooking envUTC
        [sampleBooking 1 1 1 871200000 874800000 Status.completed none]
        1 1).result
      = Except.ok
          ((sampleBooking 1 1 1 871200000 874800000 Status.completed none).updateStatus
            Status.cancelled "Dibatalkan oleh user" 1) ∧
    ((sampleBooking 1 1 1 871200000 874800000 Status.completed none).updateStatus
        Status.cancelled "Dibatalkan oleh user" 1).status = Status.cancelled :=
  ⟨rfl, rfl, rfl⟩

/-- C6 (amended). Cancellation succeeds iff the caller owns the booking,
its status is neither `cancelled` nor `rejected` (a `completed` booking
with a future start can still be cancelled), and the start time has not
passed; a successful cancellation sets the status to `cancelled`, and an
already-cancelled booking can never be cancelled a second time. -/
theorem cancel_guard (env : Env) (store : List Booking)
    (callerId bookingId : Nat) (b : Booking)
    (hfind : store.find? (fun x => x.id == bookingId) = some b) :
    ((∃ b', (cancelBooking env store callerId bookingId).result
        = Except.ok b') ↔
      (b.userId = callerId ∧ b.status ≠ Status.cancelled ∧
       b.status ≠ Status.rejected ∧ env.now ≤ b.startTime)) ∧
    (∀ b', (cancelBooking env store callerId bookingId).result
        = Except.ok b' → b'.status = Status.cancelled) := by
  by_cases h1 : b.userId = callerId
  · by_cases h2 : b.status = Status.cancelled
    · simp [cancelBooking, hfind, h1, h2]
    · by_cases h3 : b.status = Status.rejected
      · simp [cancelBooking, hfind, h1, h2, h3]
      · by_cases h4 : b.startTime < env.now
        · simp [cancelBooking, hfind, h1, h2, h3, h4]
        · simp [cancelBooking, hfind, h1, h2, h3, h4, Booking.updateStatus]
          omega
  · simp [cancelBooking, hfind, h1]

/-- Witness for C6: the owner cancels the pending future booking `b0`. -/
theorem cancel_guard_witness :
    ∃ b', (cancelBooking envUTC [b0] 1 1).result = Except.ok b' :=
  (cancel_guard envUTC [b0] 1 1 b0 rfl).1.2
    ⟨rfl, by decide, by decide, by decide⟩

/-- A pending booking carrying an attached document. -/
def bPendingDoc : Booking :=
  sampleBooking 1 1 1 871200000 874800000 Status.pending
    (some "uploads/documents/surat.pdf")

/-- C7 counterexample. The admin delete path has no status guard: a
`pending` booking is hard-deleted (and its document removed) by
`DELETE /admin/:id`, although the claim says a pending booking cannot be
deleted through either path. -/
theorem admin_delete_pending_cx :
    bPendingDoc.status = Status.pending ∧
    (adminDeleteBooking [bPendingDoc] 1).result = Except.ok () ∧
    (adminDeleteBooking [bPendingDoc] 1).store = [] ∧
    (adminDeleteBooking [bPendingDoc] 1).docDeleted = true :=
  ⟨rfl, rfl, rfl, rfl⟩

/-- C7 (amended). The owner delete path hard-deletes iff the caller owns
the booking and its status is terminal (`cancelled`, `rejected` or
`completed`), removing the record and any attached document; the admin
delete path hard-deletes any existing booking regardless of status, also
removing any attached document. -/
theorem delete_guards :
    (∀ (store : List Booking) (callerId bookingId : Nat) (b : Booking),
      store.find? (fun x => x.id == bookingId) = some b →
      (((deleteBooking store callerId bookingId).result = Except.ok ()) ↔
        (b.userId = callerId ∧
         (b.status = Status.cancelled ∨ b.status = Status.rejected ∨
          b.status = Status.completed))) ∧
      ((deleteBooking store callerId bookingId).result = Except.ok () →
        (deleteBooking store callerId bookingId).store
          = store.filter (fun x => !(x.id == bookingId)) ∧
        (deleteBooking store callerId bookingId).docDeleted
          = b.documentPath.isSome)) ∧
    (∀ (store : List Booking) (bookingId : Nat) (b : Booking),
      store.find? (fun x => x.id == bookingId) = some b →
      (adminDeleteBooking store bookingId).result = Except.ok () ∧
      (adminDeleteBooking store bookingId).store
        = store.filter (fun x => !(x.id == bookingId)) ∧
      (adminDeleteBooking store bookingId).docDeleted
        = b.documentPath.isSome) := by
  constructor
  · intro store callerId bookingId b hfind
    by_cases h1 : b.userId = callerId
    · cases hst : b.status <;>
        simp [deleteBooking, hfind, h1, hst]
    · simp [deleteBooking, hfind, h1]
  · intro store bookingId b hfind
    simp [adminDeleteBooking, hfind]

/-- Witness for C7: the owner deletes a cancelled booking with an attached
document; the record is removed and the document deleted. -/
theorem delete_guards_witness :
    ((deleteBooking
        [sampleBooking 1 1 1 871200000 874800000 Status.cancelled
          (some "uploads/documents/surat.pdf")] 1 1).result
      = Except.ok ()) ∧
    ((deleteBooking
        [sampleBooking 1 1 1 871200000 874800000 Status.cancelled
          (some "uploads/documents/surat.pdf")] 1 1).result
      = Except.ok () →
      (deleteBooking
          [sampleBooking 1 1 1 871200000 874800000 Status.cancelled
            (some "uploads/documents/surat.pdf")] 1 1).docDeleted
        = (sampleBooking 1 1 1 871200000 874800000 Status.cancelled
            (some "uploads/documents/surat.pdf")).documentPath.isSome) := by
  have h := delete_guards.1
    [sampleBooking 1 1 1 871200000 874800000 Status.cancelled
      (some "uploads/documents/surat.pdf")] 1 1
    (sampleBooking 1 1 1 871200000 874800000 Status.cancelled
      (some "uploads/documents/surat.pdf")) rfl
  exact ⟨h.1.2 ⟨rfl, Or.inl rfl⟩, fun hok => (h.2 hok).2⟩

/-- A create request over 00:30–17:30 UTC of day 10: 07:30 of day 10 to
00:30 of day 11 in Jakarta time — multi-day at UTC+7, single-day in UTC. -/
def reqCrossMidnightWIB : CreateReq :=
  { roomId := some 1,
    activityName := some "Seminar",
    purpose := "Umum",
    startTime := some (some 865800000),
    endTime := some (some 927000000),
    participantsCount := none,
    notes := none,
    file := none }

/-- C8 counterexample. With the server running in UTC, an interval that
spans two calendar dates in the room's UTC+7 offset (so per the claim the
operating-hours check must be skipped) is nonetheless single-day by the
server-local `toDateString` comparison, undergoes the check, and is
rejected with OutOfOperatingHours. -/
theorem hours_check_server_tz_cx :
    localDay 7 865800000 ≠ localDay 7 927000000 ∧
    localDay envUTC.serverOffsetHours 865800000
      = localDay envUTC.serverOffsetHours 927000000 ∧
    (createBooking envUTC [room1] [] 2 9 reqCrossMidnightWIB false).result
      = Except.error (CreateError.outOfOperatingHours ("08:00", "17:00")) :=
  ⟨by decide, rfl, rfl⟩

/-- C8 (amended). The single-day determination compares calendar dates in
the server process's local timezone (`toDateString`), not the room's UTC+7
offset; only the hour bounds are computed in UTC+7. For a request passing
every earlier check: if start and end fall on different server-local
calendar dates the hours check is skipped and the create succeeds, and if
they fall on the same server-local date with a Jakarta-hour outside the
room's window the create fails with OutOfOperatingHours carrying the
window. -/
theorem hours_check_server_local (env : Env) (rooms : List Room)
    (store : List Booking) (callerId freshId : Nat) (req : CreateReq)
    (rid : Nat) (a : String) (s e : Nat) (room : Room)
    (hrid : req.roomId = some rid) (ha : req.activityName = some a)
    (hs : req.startTime = some (some s)) (he : req.endTime = some (some e))
    (hroom : rooms.find? (fun r => r.id == rid) = some room)
    (hactive : room.isActive = true)
    (horder : s < e) (hnow : env.now ≤ s)
    (hconf : checkConflict store rid s e none = none)
    (hpc : req.participantsCount = none) :
    (localDay env.serverOffsetHours s ≠ localDay env.serverOffsetHours e →
      ∃ b', (createBooking env rooms store callerId freshId req false).result
        = Except.ok b') ∧
    (localDay env.serverOffsetHours s = localDay env.serverOffsetHours e →
      ((getUTCHours s + 7) % 24 < roomStartHour room ∨
       roomEndHour room < (getUTCHours e + 7) % 24) →
      (createBooking env rooms store callerId freshId req false).result
        = Except.error (CreateError.outOfOperatingHours (roomWindow room))) := by
  have h1 : ¬ (e ≤ s) := by omega
  have h2 : ¬ (s < env.now) := by omega
  constructor
  · intro hmd
    have hOOH : outOfHours env room s e = false := by
      simp [outOfHours, hmd]
    simp [createBooking, hrid, ha, hs, he, hroom, hactive, hconf, h1, h2,
      hpc, hOOH]
  · intro hd hout
    have hOOH : outOfHours env room s e = true := by
      simpa [outOfHours, hd] using hout
    simp [createBooking, hrid, ha, hs, he, hroom, hactive, hconf, h1, h2,
      hpc, hOOH]

/-- A concrete environment whose server runs at UTC+7. -/
def envWIB : Env := { now := 0, serverOffsetHours := 7 }

/-- A create request over 00:00–02:00 UTC of day 10, i.e. 07:00–09:00
Jakarta time on one Jakarta calendar date. -/
def reqEarlyWIB : CreateReq :=
  { roomId := some 1,
    activityName := some "Seminar",
    purpose := "Umum",
    startTime := some (some 864000000),
    endTime := some (some 871200000),
    participantsCount := none,
    notes := none,
    file := none }

/-- Witness for C8: with the server at UTC+7, a same-day 07:00–09:00
Jakarta booking against the default 08:00–17:00 window is rejected with
OutOfOperatingHours. -/
theorem hours_check_server_local_witness :
    (createBooking envWIB [room1] [] 2 9 reqEarlyWIB false).result
      = Except.error (CreateError.outOfOperatingHours (roomWindow room1)) :=
  (hours_check_server_local envWIB [room1] [] 2 9 reqEarlyWIB 1 "Seminar"
    864000000 871200000 room1 rfl rfl rfl rfl rfl rfl (by decide)
    (by decide) rfl rfl).2 (by decide) (Or.inl (by decide))

/-- The over-capacity conflicting request resubmitted with an uploaded
document attached. -/
def reqConflictWithFile : CreateReq :=
  { roomId := some 1,
    activityName := some "Latihan",
    purpose := "Latihan dasar",
    startTime := some (some 871200000),
    endTime := some (some 874800000),
    participantsCount := some 5,
    notes := none,
    file := some "uploads/documents/lampiran.pdf" }

/-- C9 counterexample. A create request carrying an uploaded document that
fails the conflict check returns an error without deleting the uploaded
file: the early-return error branches perform no cleanup (only the catch
block does), so the upload is orphaned — though no booking record is
written. -/
theorem create_orphan_file_cx :
    (createBooking envUTC [room1] [b0] 2 9 reqConflictWithFile false).result
      = Except.error (CreateError.conflict b0) ∧
    (createBooking envUTC [room1] [b0] 2 9 reqConflictWithFile false).fileDeleted
      = false ∧
    (createBooking envUTC [room1] [b0] 2 9 reqConflictWithFile false).store
      = [b0] ∧
    reqConflictWithFile.file.isSome = true :=
  ⟨rfl, rfl, rfl, rfl⟩

/-- C9 (amended). A failing create never writes a booking record, but the
uploaded document is cleaned up only when the failure is a thrown error
reaching the catch block (modelled as `internalError`): the uploaded file
is deleted iff the result is `internalError` and a file was uploaded; every
early-return failure (missing fields, unknown room, bad dates, ordering,
past start, conflict, capacity, operating hours) leaves the uploaded file
in place. -/
theorem create_cleanup_on_throw_only (env : Env) (rooms : List Room)
    (store : List Booking) (callerId freshId : Nat) (req : CreateReq)
    (th : Bool) :
    (∀ err, (createBooking env rooms store callerId freshId req th).result
        = Except.error err →
      (createBooking env rooms store callerId freshId req th).store = store) ∧
    ((createBooking env rooms store callerId freshId req th).fileDeleted = true ↔
      ((createBooking env rooms store callerId freshId req th).result
          = Except.error CreateError.internalError ∧
       req.file.isSome = true)) := by
  generalize ho : createBooking env rooms store callerId freshId req th = o
  unfold createBooking at ho
  repeat' split at ho
  all_goals subst ho
  all_goals simp_all
  all_goals try (split_ifs <;> simp_all)

/-- Witness for C9: a valid create whose store write throws cleans up the
uploaded file and writes nothing. -/
theorem create_cleanup_on_throw_only_witness :
    (createBooking envUTC [room1] [] 2 9 reqConflictWithFile true).store
      = [] ∧
    (createBooking envUTC [room1] [] 2 9 reqConflictWithFile true).fileDeleted
      = true :=
  ⟨(create_cleanup_on_throw_only envUTC [room1] [] 2 9 reqConflictWithFile
      true).1 CreateError.internalError rfl,
   (create_cleanup_on_throw_only envUTC [room1] [] 2 9 reqConflictWithFile
      true).2.2 ⟨rfl, rfl⟩⟩

/-- C10. A created booking's `participantsCount` defaults to 1 whenever the
request omits the field (or sends an empty value). -/
theorem create_default_participants (env : Env) (rooms : List Room)
    (store : List Booking) (callerId freshId : Nat) (req : CreateReq)
    (th : Bool) (b' : Booking)
    (hpc : req.participantsCount = none)
    (hok : (createBooking env rooms store callerId freshId req th).result
      = Except.ok b') :
    b'.participantsCount = 1 := by
  unfold createBooking at hok
  repeat' split at hok
  all_goals simp_all
  all_goals subst hok
  all_goals rfl

/-- A create request omitting `participantsCount`. -/
def reqNoPc : CreateReq :=
  { roomId := some 1,
    activityName := some "Diskusi",
    purpose := "Umum",
    startTime := some (some 871200000),
    endTime := some (some 874800000),
    participantsCount := none,
    notes := none,
    file := none }

/-- Witness for C10: the successful create of `reqNoPc` yields a booking
with one participant. -/
theorem create_default_participants_witness :
    ∃ b', (createBooking envUTC [room1] [] 2 9 reqNoPc false).result
        = Except.ok b' ∧ b'.participantsCount = 1 :=
  ⟨_, rfl,
   create_default_participants envUTC [room1] [] 2 9 reqNoPc false _ rfl rfl⟩
